import Mathlib

/-!
# Verification of the metabase_embedder backend

A shallow embedding of the claim-relevant parts of the repository:

* `app/metabase/client.py` — the Metabase HTTP client (`MetabaseClient`):
  group creation with lookup fallback, signed embed-URL construction.
* `app/workspace/routes.py` — `create_workspace` orchestration,
  `sync_workspace_dashboards_logic`, the dashboard embed-URL endpoint.
* `app/auth/routes.py` — `signup`, `login`,
  `assign_user_to_default_workspace`.
* `app/dashboard/routes.py` — `delete_dashboard`.
* `app/models.py` — the row types (`User`, `Workspace`, `WorkspaceMember`,
  `Dashboard`, `UserDashboard`).

External HTTP calls are modelled by their outcomes (`Except Unit α`: `.error`
is a raised exception / non-2xx response, `.ok` the parsed JSON).  The local
relational store is a record of row lists; SQLAlchemy commit/rollback becomes
explicit state passing: a routine returns the committed state, and a branch
that rolls back returns the state it was given.  Python truthiness
(`if not x:`) on optional ints/strings is modelled explicitly.
-/

namespace MetabaseEmbedder

/-- An `HTTPException` (or the generic 500 produced by the top-level
exception handler in `app/main.py`). -/
structure HttpErr where
  status : Nat
  detail : String
  deriving Repr, DecidableEq

/-- Python truthiness of an optional integer field read with `.get(...)`:
`None` and `0` are falsy. -/
def truthyInt : Option Int → Bool
  | none => false
  | some n => n != 0

/-- Python truthiness of an optional string field: `None` and `""` are falsy. -/
def truthyStr : Option String → Bool
  | none => false
  | some s => s != ""

/-- `s.rstrip("/")` on the underlying character list. -/
def rstripSlashAux (l : List Char) : List Char :=
  (l.reverse.dropWhile (· == '/')).reverse

/-- Python `s.rstrip("/")`: drop trailing `'/'` characters. -/
def rstripSlash (s : String) : String :=
  ⟨rstripSlashAux s.data⟩

/-! ## Rows (`app/models.py`) -/

/-- `models.User`. -/
structure UserRow where
  id : Int
  email : String
  hashed_password : String
  first_name : Option String := none
  last_name : Option String := none
  metabase_user_id : Option Int := none
  default_workspace_assigned : Bool := false
  is_active : Bool := true
  deriving Repr, DecidableEq

/-- `models.Workspace`. -/
structure WorkspaceRow where
  id : Int
  name : String
  description : Option String := none
  owner_id : Int
  metabase_collection_id : Option Int := none
  metabase_collection_name : Option String := none
  metabase_group_id : Option Int := none
  metabase_group_name : Option String := none
  database_id : Option Int := none
  is_default : Bool := false
  is_active : Bool := true
  deriving Repr, DecidableEq

/-- `models.WorkspaceMember`. -/
structure WorkspaceMemberRow where
  workspace_id : Int
  user_id : Int
  role : String := "viewer"
  deriving Repr, DecidableEq

/-- `models.Dashboard`. -/
structure DashboardRow where
  id : Int
  workspace_id : Int
  metabase_dashboard_id : Int
  metabase_dashboard_name : String
  description : Option String := none
  is_public : Bool := true
  resource_type : String := "dashboard"
  is_published : Bool := false
  deriving Repr, DecidableEq

/-- `models.UserDashboard`. -/
structure UserDashboardRow where
  user_id : Int
  dashboard_id : Int
  is_owner : Bool := false
  is_pinned : Bool := false
  deriving Repr, DecidableEq

/-- The local relational store, with autoincrement counters for the tables
whose generated ids the routines use. -/
structure Db where
  users : List UserRow := []
  workspaces : List WorkspaceRow := []
  members : List WorkspaceMemberRow := []
  dashboards : List DashboardRow := []
  userDashboards : List UserDashboardRow := []
  nextUserId : Int := 1
  nextWsId : Int := 1
  nextDashId : Int := 1
  deriving Repr, DecidableEq

/-! ## Metabase client: configuration and signed embed URLs
(`app/metabase/client.py`) -/

/-- The state `MetabaseClient.__init__` stores: both URLs are
`.rstrip("/")`-ed, and `public_url` falls back to `base_url` when falsy. -/
structure MetabaseClientCfg where
  base_url : String
  public_url : String
  admin_email : String
  admin_password : String
  embedding_secret : String
  deriving Repr, DecidableEq

/-- `MetabaseClient.__init__(base_url, admin_email, admin_password,
embedding_secret, public_url=None)`. -/
def metabaseClientInit (base_url admin_email admin_password embedding_secret :
    String) (public_url : Option String) : MetabaseClientCfg :=
  { base_url := rstripSlash base_url
    public_url := rstripSlash
      (match public_url with
       | some p => if p != "" then p else base_url
       | none => base_url)
    admin_email := admin_email
    admin_password := admin_password
    embedding_secret := embedding_secret }

/-- The claims of a signed embedding token (the `payload` dict handed to
`jwt.encode`). -/
structure EmbedPayload where
  resource_type : String
  resource_id : Int
  params : List (String × String)
  exp : Int
  email : Option String
  deriving Repr, DecidableEq

/-- The payload built by `MetabaseClient.get_dashboard_embed_url`:
expiry `int(time.time()) + 60*60*24`, and the requesting user's email. -/
def dashboardEmbedPayload (dashboard_id : Int) (user_email : String)
    (filters : List (String × String)) (now : Int) : EmbedPayload :=
  { resource_type := "dashboard"
    resource_id := dashboard_id
    params := filters
    exp := now + 60 * 60 * 24
    email := some user_email }

/-- The payload built by `MetabaseClient.get_embedded_collection_url`:
expiry `int(time.time()) + 3600`. -/
def collectionEmbedPayload (collection_id : Int) (user_email : String)
    (now : Int) : EmbedPayload :=
  { resource_type := "collection"
    resource_id := collection_id
    params := []
    exp := now + 3600
    email := some user_email }

/-- The library call `jwt.encode(payload, secret, "HS256")` is an external
primitive; routines are parameterised over it. -/
abbrev JwtEncoder := EmbedPayload → String

/-- `MetabaseClient.get_dashboard_embed_url(dashboard_id, user_email,
filters=None)`.  Raises `ValueError` (modelled `.error ()`) when
`user_email` is falsy, before any token is signed; otherwise returns
`f"{self.public_url.rstrip('/')}/embed/dashboard/{token}#bordered=false&titled=false"`. -/
def get_dashboard_embed_url (cfg : MetabaseClientCfg) (encode : JwtEncoder)
    (dashboard_id : Int) (user_email : Option String)
    (filters : List (String × String)) (now : Int) : Except Unit String :=
  if ¬ truthyStr user_email then .error ()
  else
    let token := encode
      (dashboardEmbedPayload dashboard_id (user_email.getD "") filters now)
    .ok (rstripSlash cfg.public_url ++
      ("/embed/dashboard/" ++ token ++ "#bordered=false&titled=false"))

/-- `MetabaseClient.get_embedded_collection_url(collection_id, user_email)`.
Raises `ValueError` when `user_email` is falsy; otherwise returns
`f"{base_url}{path}"` where `base_url = self.public_url.rstrip('/')` and
`path = f"/embed/collection/{token}#bordered=false&titled=true"`. -/
def get_embedded_collection_url (cfg : MetabaseClientCfg) (encode : JwtEncoder)
    (collection_id : Int) (user_email : Option String) (now : Int) :
    Except Unit String :=
  if ¬ truthyStr user_email then .error ()
  else
    let token := encode (collectionEmbedPayload collection_id (user_email.getD "") now)
    .ok (rstripSlash cfg.public_url ++
      ("/embed/collection/" ++ token ++ "#bordered=false&titled=true"))

/-! ## Metabase client: groups (`MetabaseClient.create_group`) -/

/-- A permission-group JSON object; both fields read with `.get(...)`. -/
structure MbGroup where
  id : Option Int
  name : Option String
  deriving Repr, DecidableEq

/-- A collection JSON object; `routes.py` reads `collection.get("id")` and
`collection.get("name")`. -/
structure MbCollection where
  id : Option Int
  name : Option String
  deriving Repr, DecidableEq

/-- A database JSON object; `create_workspace` reads `db_item.get("name", "")`
and `db_item["id"]`. -/
structure MbDatabase where
  id : Int
  name : String := ""
  deriving Repr, DecidableEq

/-- `MetabaseClient.create_group(name)`: POST the group; on any exception
(including a non-2xx status turned into one by `raise_for_status`), GET the
group list and return the first group whose name equals `name`; if the list
call is not a 200 or no group matches, re-raise.
`createRes` is the outcome of the POST, `listRes` of the fallback GET. -/
def create_group (name : String) (createRes : Except Unit MbGroup)
    (listRes : Except Unit (List MbGroup)) : Except Unit MbGroup :=
  match createRes with
  | .ok g => .ok g
  | .error _ =>
    match listRes with
    | .ok groups =>
      match groups.find? (fun g => g.name == some name) with
      | some g => .ok g
      | none => .error ()
    | .error _ => .error ()

/-! ## Provisioning orchestrator (`workspace/routes.py::create_workspace`) -/

/-- Outcomes of the external calls `create_workspace` makes, in program
order.  Each `create_group_*` field is the outcome of one *client-level*
`create_group` call (i.e. already includes the client's lookup fallback). -/
structure WsExt where
  create_collection : Except Unit MbCollection
  enable_collection_embedding : Except Unit Bool := .ok true
  create_group_first : Except Unit MbGroup
  create_group_retry : Except Unit MbGroup
  set_collection_permissions : Except Unit Bool
  list_databases : Except Unit (List MbDatabase)
  set_database_permissions : Except Unit Unit := .ok ()
  add_user_to_group : Except Unit Unit := .ok ()

/-- Step 3 of `create_workspace`: try `create_group(group_name)`; on
exception, try once more with the time-suffixed `unique_group_name` and on a
second exception raise `HTTPException(500, "Failed to create workspace group
in Metabase")`; finally `if not group_id:` raise
`HTTPException(500, "Failed to get group ID from Metabase")`.
Returns the resolved group id together with the group name recorded on the
workspace row (`group_name` is reassigned on the retry path). -/
def resolveWorkspaceGroup (group_name unique_name : String)
    (first retry : Except Unit MbGroup) : Except HttpErr (Int × String) :=
  match first with
  | .ok g =>
    if truthyInt g.id then .ok (g.id.getD 0, group_name)
    else .error ⟨500, "Failed to get group ID from Metabase"⟩
  | .error _ =>
    match retry with
    | .ok g =>
      if truthyInt g.id then .ok (g.id.getD 0, unique_name)
      else .error ⟨500, "Failed to get group ID from Metabase"⟩
    | .error _ => .error ⟨500, "Failed to create workspace group in Metabase"⟩

/-- Step 5's scan of `list_databases()`: the first database named
`"Analytics Database"` or `"Analytics"`; `analytics_db_id` is assigned
before `set_database_permissions` is awaited, so it survives a failure of
that call. -/
def findAnalyticsDb : List MbDatabase → Option Int
  | [] => none
  | d :: rest =>
    if d.name = "Analytics Database" ∨ d.name = "Analytics" then some d.id
    else findAnalyticsDb rest

/-- The `analytics_db_id` that step 5 leaves behind: `None` when the
listing itself failed (the whole step is inside one `try`). -/
def analyticsDbOf (ext : WsExt) : Option Int :=
  match ext.list_databases with
  | .ok dbs => findAnalyticsDb dbs
  | .error _ => none

/-- The `Workspace(...)` row assembled at step 7 of `create_workspace`. -/
def newWorkspaceRow (name : String) (description : Option String)
    (user : UserRow) (db : Db) (coll : MbCollection) (gid : Int)
    (gname : String) (analytics_db_id : Option Int) : WorkspaceRow :=
  { id := db.nextWsId
    name := name
    description := description
    owner_id := user.id
    metabase_collection_id := coll.id
    metabase_collection_name := coll.name
    metabase_group_id := some gid
    metabase_group_name := some gname
    database_id := analytics_db_id
    is_default := false
    is_active := true }

/-- `create_workspace(workspace_data, current_user, db, mb_client)`.
Mandatory steps (collection creation, group resolution, collection write
permission) raise out of the handler: the `except` branches roll back and
surface a 500-status `HTTPException`, returning the store unchanged.
Best-effort steps (collection embedding, database permissions, group
membership) have their outcomes ignored.  On success the workspace row and
the `"owner"` membership row are committed. -/
def create_workspace (name : String) (description : Option String)
    (user : UserRow) (db : Db) (ext : WsExt) (now : Int) :
    Except HttpErr WorkspaceRow × Db :=
  match ext.create_collection with
  | .error _ => (.error ⟨500, "Failed to create workspace"⟩, db)
  | .ok coll =>
    let group_name := name ++ " Team"
    let unique_name := group_name ++ "_" ++ toString now
    match resolveWorkspaceGroup group_name unique_name
        ext.create_group_first ext.create_group_retry with
    | .error e => (.error e, db)
    | .ok (gid, gname) =>
      match ext.set_collection_permissions with
      | .error _ => (.error ⟨500, "Failed to create workspace"⟩, db)
      | .ok _ =>
        let ws : WorkspaceRow :=
          newWorkspaceRow name description user db coll gid gname
            (analyticsDbOf ext)
        let member : WorkspaceMemberRow :=
          { workspace_id := ws.id, user_id := user.id, role := "owner" }
        (.ok ws,
          { db with
              workspaces := db.workspaces ++ [ws]
              members := db.members ++ [member]
              nextWsId := db.nextWsId + 1 })

/-- Whether all mandatory provisioning steps succeed on these outcomes. -/
def wsMandatoryOk (ext : WsExt) : Bool :=
  (match ext.create_collection with | .ok _ => true | .error _ => false) &&
  (match ext.create_group_first with
   | .ok g => truthyInt g.id
   | .error _ =>
     match ext.create_group_retry with
     | .ok g => truthyInt g.id
     | .error _ => false) &&
  (match ext.set_collection_permissions with | .ok _ => true | .error _ => false)

/-! ## Sync reconciler (`workspace/routes.py::sync_workspace_dashboards_logic`) -/

/-- One element of the collection-items listing; all three fields are read
with `.get(...)`. -/
structure CollectionItem where
  model : Option String
  id : Option Int
  name : Option String
  deriving Repr, DecidableEq

/-- One iteration of the sync loop over `(rows, next autoincrement id,
synced_count)`: skip items that are neither `"dashboard"` nor `"card"`, skip
falsy ids/names, skip items whose external id already has a row in this
workspace, otherwise add a new unpublished row (the per-item
`enable_resource_embedding` call is wrapped in its own `try`, so its outcome
cannot alter the state).  An existing row is left untouched. -/
def syncItem (workspace_id : Int) (st : List DashboardRow × Int × Nat)
    (item : CollectionItem) : List DashboardRow × Int × Nat :=
  let (rows, nid, cnt) := st
  if item.model ≠ some "dashboard" ∧ item.model ≠ some "card" then st
  else if ¬ truthyInt item.id ∨ ¬ truthyStr item.name then st
  else if rows.any (fun r =>
      r.workspace_id == workspace_id &&
      r.metabase_dashboard_id == item.id.getD 0) then st
  else
    (rows ++ [{ id := nid
                workspace_id := workspace_id
                metabase_dashboard_id := item.id.getD 0
                metabase_dashboard_name := item.name.getD ""
                description := none
                is_public := false
                resource_type := "dashboard"
                is_published := false }],
     nid + 1, cnt + 1)

/-- The sync loop over the fetched items. -/
def syncItems (workspace_id : Int) (items : List CollectionItem)
    (st : List DashboardRow × Int × Nat) : List DashboardRow × Int × Nat :=
  items.foldl (syncItem workspace_id) st

/-- What `sync_workspace_dashboards_logic` returns: `[]` when the workspace
is missing or has no collection, else the count of newly created rows. -/
inductive SyncReturn where
  | noCollection
  | synced (n : Nat)
  deriving Repr, DecidableEq

/-- `sync_workspace_dashboards_logic(workspace_id, db, mb_client)`.
`fetch` is the outcome of `mb_client.get_collection_items(...)`; an
exception there hits the `except` branch, which rolls the transaction back
and re-raises; on success all upserts are committed at once. -/
def sync_workspace_dashboards_logic (workspace_id : Int) (db : Db)
    (fetch : Except Unit (List CollectionItem)) :
    Except Unit SyncReturn × Db :=
  match db.workspaces.find? (fun w => w.id == workspace_id) with
  | none => (.ok .noCollection, db)
  | some ws =>
    if ¬ truthyInt ws.metabase_collection_id then (.ok .noCollection, db)
    else
      match fetch with
      | .error _ => (.error (), db)
      | .ok items =>
        let st := syncItems workspace_id items (db.dashboards, db.nextDashId, 0)
        (.ok (.synced st.2.2), { db with dashboards := st.1, nextDashId := st.2.1 })

/-- An item is *covered* by a row set when the sync loop would skip it:
irrelevant model, falsy id/name, or an existing row with its external id in
the workspace. -/
def itemCovered (workspace_id : Int) (rows : List DashboardRow)
    (item : CollectionItem) : Prop :=
  (item.model ≠ some "dashboard" ∧ item.model ≠ some "card") ∨
  (¬ truthyInt item.id ∨ ¬ truthyStr item.name) ∨
  rows.any (fun r =>
    r.workspace_id == workspace_id &&
    r.metabase_dashboard_id == item.id.getD 0) = true

/-! ## Auth routes (`app/auth/routes.py`) -/

/-- A Metabase user JSON object; the routes only read `.get("id")`. -/
structure MbUser where
  id : Option Int
  deriving Repr, DecidableEq

/-- Outcomes of the external calls made by `signup`, `login` and
`assign_user_to_default_workspace`, in program order. -/
structure AuthExt where
  get_user_by_email : Except Unit (Option MbUser)
  create_metabase_user : Except Unit MbUser
  get_all_users_group_id : Except Unit Int := .ok 1
  add_user_to_all_users : Except Unit Unit := .ok ()
  create_default_collection : Except Unit MbCollection
  create_default_group : Except Unit MbGroup
  add_user_to_default_group : Except Unit Unit := .ok ()

/-- Step 3 of `signup`: `get_user_by_email`, falling back to
`create_metabase_user` when no Metabase user exists yet.  Any exception
escapes to `signup`'s `except` (which merely logs). -/
def resolveMbUser (ext : AuthExt) : Except Unit (Option MbUser) :=
  match ext.get_user_by_email with
  | .error _ => .error ()
  | .ok (some u) => .ok (some u)
  | .ok none =>
    match ext.create_metabase_user with
    | .error _ => .error ()
    | .ok u => .ok (some u)

/-- The `metabase_user_id` `signup` ends up storing: the resolved Metabase
user's id when the try-block succeeds and the id is truthy
(`if mb_user and mb_user.get("id"):`), else `None`. -/
def signupMbId (ext : AuthExt) : Option Int :=
  match resolveMbUser ext with
  | .ok (some u) => if truthyInt u.id then u.id else none
  | _ => none

/-- Mark a user row `default_workspace_assigned`. -/
def setAssigned (users : List UserRow) (uid : Int) : List UserRow :=
  users.map (fun u =>
    if u.id == uid then { u with default_workspace_assigned := true } else u)

/-- `assign_user_to_default_workspace(user, db, mb_client)`.  When a default
active workspace exists, only local rows change (the optional Metabase group
membership is inside its own `try`).  When none exists, the workspace row is
created and the Metabase collection/group creations are mandatory: a failure
rolls back everything this routine did and re-raises (`.error ()`); the
caller's previously committed state — the `db` passed in — is what remains. -/
def assign_user_to_default_workspace (user : UserRow) (db : Db)
    (ext : AuthExt) : Except Unit Db :=
  match db.workspaces.find? (fun w => w.is_default && w.is_active) with
  | some ws =>
    let members' :=
      if db.members.any (fun m =>
          m.workspace_id == ws.id && m.user_id == user.id) then db.members
      else db.members ++
        [{ workspace_id := ws.id, user_id := user.id
           role := if ws.owner_id == user.id then "owner" else "editor" }]
    .ok { db with members := members', users := setAssigned db.users user.id }
  | none =>
    match ext.create_default_collection with
    | .error _ => .error ()
    | .ok coll =>
      match ext.create_default_group with
      | .error _ => .error ()
      | .ok grp =>
        let ws : WorkspaceRow :=
          { id := db.nextWsId
            name := "My Workspace"
            description := some "Your personal workspace for dashboards"
            owner_id := user.id
            metabase_collection_id := coll.id
            metabase_collection_name := coll.name
            metabase_group_id := grp.id
            metabase_group_name := grp.name
            is_default := true
            is_active := true }
        let members' :=
          if db.members.any (fun m =>
              m.workspace_id == ws.id && m.user_id == user.id) then db.members
          else db.members ++
            [{ workspace_id := ws.id, user_id := user.id, role := "owner" }]
        .ok { db with
                workspaces := db.workspaces ++ [ws]
                members := members'
                users := setAssigned db.users user.id
                nextWsId := db.nextWsId + 1 }

/-- `get_password_hash(password)`: `ValueError` on an empty password (which
escapes to the generic 500 handler), 400 when the UTF-8 encoding exceeds 72
bytes; bcrypt itself (`hashPw`) is an external primitive. -/
def get_password_hash (hashPw : String → String) (password : String) :
    Except HttpErr String :=
  if password == "" then .error ⟨500, "Internal server error"⟩
  else if password.utf8ByteSize > 72 then
    .error ⟨400, "Password is too long (max 72 characters)"⟩
  else .ok (hashPw password)

/-- `signup(user_data, db)`.  Duplicate email → 400.  The Metabase
user-creation try-block can only change `metabase_user_id` (its failure is
logged and swallowed).  `assign_user_to_default_workspace` is called
*outside* any `try`: if it raises, the exception reaches the generic
handler in `app/main.py` and the response is a 500, while the user row
committed earlier remains.  On success the endpoint returns 201 with the
(now default-workspace-assigned) user row. -/
def signup (email password : String) (first_name last_name : Option String)
    (hashPw : String → String) (db : Db) (ext : AuthExt) :
    Except HttpErr UserRow × Db :=
  if db.users.any (fun u => u.email == email) then
    (.error ⟨400, "Email already registered"⟩, db)
  else
    match get_password_hash hashPw password with
    | .error e => (.error e, db)
    | .ok hpw =>
      let user1 : UserRow :=
        { id := db.nextUserId
          email := email
          hashed_password := hpw
          first_name := first_name
          last_name := last_name
          metabase_user_id := signupMbId ext
          default_workspace_assigned := false
          is_active := true }
      let db1 : Db :=
        { db with users := db.users ++ [user1], nextUserId := db.nextUserId + 1 }
      match assign_user_to_default_workspace user1 db1 ext with
      | .error _ => (.error ⟨500, "Internal server error"⟩, db1)
      | .ok db2 =>
        (.ok { user1 with default_workspace_assigned := true }, db2)

/-- The decoded claims of the access token `create_access_token` signs. -/
structure AccessClaims where
  sub : String
  exp : Int
  deriving Repr, DecidableEq

/-- `create_access_token(data={"sub": email})`. -/
def create_access_token (sub : String) (now expire_minutes : Int) :
    AccessClaims :=
  { sub := sub, exp := now + expire_minutes * 60 }

/-- The `Token` response model. -/
structure TokenResponse where
  access_token : AccessClaims
  token_type : String
  deriving Repr, DecidableEq

/-- A parsed JSON login body (`request.json()`), fields read with `.get`. -/
structure LoginBody where
  email : Option String := none
  username : Option String := none
  password : Option String := none
  deriving Repr, DecidableEq

/-- Python `a or b` on two optional strings. -/
def pyOrStr (a b : Option String) : Option String :=
  if truthyStr a then a else b

/-- The credential-resolution prologue of `login`: prefer the OAuth2 form;
when the form username is falsy, fall back to the JSON body (`body = none`
models `request.json()` raising, in which case the form values stand). -/
def resolveLoginCreds (form_username form_password : String)
    (body : Option LoginBody) : Option String × Option String :=
  if form_username != "" then (some form_username, some form_password)
  else
    match body with
    | none => (some form_username, some form_password)
    | some b => (pyOrStr b.email b.username, b.password)

/-- `login(request, db, form_data)`.  Missing credentials → 422; unknown
email or failed `verify_password` → 401 (`verify` is the external bcrypt
check); inactive user → 400; otherwise the first login triggers the
best-effort default-workspace assignment (its failure is caught and logged)
and a bearer token is returned. -/
def login (form_username form_password : String) (body : Option LoginBody)
    (db : Db) (verify : String → String → Bool) (ext : AuthExt)
    (now expire_minutes : Int) : Except HttpErr TokenResponse × Db :=
  let creds := resolveLoginCreds form_username form_password body
  if ¬ truthyStr creds.1 ∨ ¬ truthyStr creds.2 then
    (.error ⟨422, "Email and password required"⟩, db)
  else
    let email := creds.1.getD ""
    let password := creds.2.getD ""
    match db.users.find? (fun u => u.email == email) with
    | none => (.error ⟨401, "Incorrect email or password"⟩, db)
    | some user =>
      if ¬ verify password user.hashed_password then
        (.error ⟨401, "Incorrect email or password"⟩, db)
      else if ¬ user.is_active then (.error ⟨400, "Inactive user"⟩, db)
      else
        let db' :=
          if user.default_workspace_assigned then db
          else
            match assign_user_to_default_workspace user db ext with
            | .ok d => d
            | .error _ => db
        (.ok { access_token := create_access_token user.email now expire_minutes
               token_type := "bearer" }, db')

/-! ## Dashboard deletion (`dashboard/routes.py::delete_dashboard`) -/

/-- `delete_dashboard(dashboard_id, current_user, db)`.  Missing link or
non-owner → 403.  Otherwise the caller's `UserDashboard` row is deleted;
the remaining-links count is taken *after* that delete (SQLAlchemy
autoflushes the pending delete before the count query), and when it is zero
the `Dashboard` row's `is_published` is set to `False` — the row itself is
never deleted. -/
def delete_dashboard (dashboard_id user_id : Int) (db : Db) :
    Except HttpErr Unit × Db :=
  match db.userDashboards.find? (fun l =>
      l.user_id == user_id && l.dashboard_id == dashboard_id) with
  | none => (.error ⟨403, "Only dashboard owner can delete"⟩, db)
  | some ud =>
    if ¬ ud.is_owner then (.error ⟨403, "Only dashboard owner can delete"⟩, db)
    else
      let links' := db.userDashboards.eraseP (fun l =>
        l.user_id == user_id && l.dashboard_id == dashboard_id)
      let remaining :=
        (links'.filter (fun l => l.dashboard_id == dashboard_id)).length
      let dashboards' :=
        if remaining == 0 then
          db.dashboards.map (fun d =>
            if d.id == dashboard_id then { d with is_published := false } else d)
        else db.dashboards
      (.ok (), { db with userDashboards := links', dashboards := dashboards' })

/-! ## Dashboard embed endpoint
(`workspace/routes.py::get_dashboard_embed_url`, the route) -/

/-- The `EmbeddedUrlResponse` schema. -/
structure EmbeddedUrlResponse where
  url : String
  expires_in_minutes : Int
  deriving Repr, DecidableEq

/-- The `GET /api/workspaces/dashboards/{dashboard_id}/embed` handler:
look up the local row (404), check membership (403), ensure embedding
(cannot raise: the client method swallows everything), then sign the URL
with the requesting user's email and answer `expires_in_minutes: 60`.
A `ValueError` from the client would reach the generic 500 handler. -/
def route_get_dashboard_embed_url (dashboard_id : Int) (user : UserRow)
    (db : Db) (cfg : MetabaseClientCfg) (encode : JwtEncoder) (now : Int) :
    Except HttpErr EmbeddedUrlResponse :=
  match db.dashboards.find? (fun d => d.id == dashboard_id) with
  | none => .error ⟨404, "Dashboard not found"⟩
  | some dash =>
    match db.members.find? (fun m =>
        m.workspace_id == dash.workspace_id && m.user_id == user.id) with
    | none => .error ⟨403, "Access denied to this dashboard"⟩
    | some _ =>
      match get_dashboard_embed_url cfg encode dash.metabase_dashboard_id
          (some user.email) [] now with
      | .error _ => .error ⟨500, "Internal server error"⟩
      | .ok url => .ok { url := url, expires_in_minutes := 60 }

/-! ## Concrete sample data for evaluating the routines -/

/-- A sample application user. -/
def sampleUser : UserRow := { id := 9, email := "u@x.com", hashed_password := "h" }

/-- A sample client configuration (internal URL only). -/
def sampleCfg : MetabaseClientCfg :=
  metabaseClientInit "http://metabase:3000" "a@x" "pw" "sec" none

/-- A mock token signer. -/
def sampleEncode : JwtEncoder := fun _ => "TOK"

/-- A store with one workspace, one dashboard in it, and the sample user as
its member. -/
def sampleDb : Db :=
  { users := [sampleUser]
    workspaces := [{ id := 3, name := "Sales", owner_id := 9
                     metabase_collection_id := some 10
                     metabase_collection_name := some "Sales" }]
    members := [{ workspace_id := 3, user_id := 9, role := "owner" }]
    dashboards := [{ id := 1, workspace_id := 3, metabase_dashboard_id := 44
                     metabase_dashboard_name := "Sales KPIs"
                     is_public := false, is_published := false }]
    userDashboards := [{ user_id := 9, dashboard_id := 1, is_owner := true
                         is_pinned := true }]
    nextUserId := 10, nextWsId := 4, nextDashId := 2 }

/-! ## Helper lemmas -/

theorem dropWhile_dropWhile_self (p : Char → Bool) (l : List Char) :
    (l.dropWhile p).dropWhile p = l.dropWhile p := by
  induction l with
  | nil => rfl
  | cons a t ih =>
    by_cases h : p a
    · simp [List.dropWhile_cons, h, ih]
    · simp [List.dropWhile_cons, h]

theorem rstripSlashAux_idem (l : List Char) :
    rstripSlashAux (rstripSlashAux l) = rstripSlashAux l := by
  simp [rstripSlashAux, dropWhile_dropWhile_self]

theorem rstripSlash_idem (s : String) :
    rstripSlash (rstripSlash s) = rstripSlash s := by
  simp [rstripSlash, rstripSlashAux_idem]

theorem rstripSlash_init_public (base adminE adminP secret : String)
    (pub : Option String) :
    rstripSlash (metabaseClientInit base adminE adminP secret pub).public_url =
      (metabaseClientInit base adminE adminP secret pub).public_url := by
  simp [metabaseClientInit, rstripSlash_idem]

theorem filter_eraseP_nil {α : Type} {p q : α → Bool} {l : List α} {a : α}
    (hmem : a ∈ l) (hpa : p a = true)
    (himp : ∀ x, p x = true → q x = true)
    (hfilter : l.filter q = [a]) :
    (l.eraseP p).filter q = [] := by
  obtain ⟨b, l₁, l₂, hnp, hpb, rfl, herase⟩ := List.exists_of_eraseP hmem hpa
  rw [herase]
  have hqb : q b = true := himp b hpb
  rw [List.filter_append, List.filter_cons, if_pos hqb] at hfilter
  have h1 : l₁.filter q = [] ∧ l₂.filter q = [] := by
    cases hf1 : l₁.filter q with
    | nil =>
      rw [hf1, List.nil_append, List.cons.injEq] at hfilter
      exact ⟨rfl, hfilter.2⟩
    | cons x xs =>
      rw [hf1] at hfilter
      simp at hfilter
  rw [List.filter_append, h1.1, h1.2]
  rfl

/-! ## Claim theorems -/

/-- C10: both URL signers raise `ValueError` whenever `user_email` is
`None` or the empty string — the `.error` branch is taken before any token
is produced — and for every non-empty `user_email` they return a URL that
extends the client's `public_url` (the constructor-normalised public URL,
not the internal `base_url`). -/
theorem embed_url_email_guard_and_public_base
    (base adminE adminP secret : String) (pub : Option String)
    (encode : JwtEncoder) (rid : Int) (filters : List (String × String))
    (now : Int) :
    (∀ e : Option String, truthyStr e = false →
      get_dashboard_embed_url (metabaseClientInit base adminE adminP secret pub)
          encode rid e filters now = .error () ∧
      get_embedded_collection_url (metabaseClientInit base adminE adminP secret pub)
          encode rid e now = .error ()) ∧
    (∀ s : String, s ≠ "" →
      (∃ rest, get_dashboard_embed_url
          (metabaseClientInit base adminE adminP secret pub)
          encode rid (some s) filters now =
        .ok ((metabaseClientInit base adminE adminP secret pub).public_url ++ rest)) ∧
      (∃ rest, get_embedded_collection_url
          (metabaseClientInit base adminE adminP secret pub)
          encode rid (some s) now =
        .ok ((metabaseClientInit base adminE adminP secret pub).public_url ++ rest))) := by
  constructor
  · intro e he
    constructor
    · simp [get_dashboard_embed_url, he]
    · simp [get_embedded_collection_url, he]
  · intro s hs
    have ht : truthyStr (some s) = true := by simp [truthyStr, hs]
    constructor
    · exact ⟨"/embed/dashboard/" ++
        encode (dashboardEmbedPayload rid s filters now) ++
        "#bordered=false&titled=false",
        by simp [get_dashboard_embed_url, ht, rstripSlash_init_public]⟩
    · exact ⟨"/embed/collection/" ++ encode (collectionEmbedPayload rid s now) ++
        "#bordered=false&titled=true",
        by simp [get_embedded_collection_url, ht, rstripSlash_init_public]⟩

/-- C10 witness: concrete client with a public URL distinct from the
internal base URL; empty email errors, a real email yields a
public-URL-prefixed link. -/
theorem embed_url_email_guard_witness :
    (truthyStr (some "") = false ∧
      get_dashboard_embed_url
        (metabaseClientInit "http://metabase:3000" "admin@x.com" "pw" "sec"
          (some "https://mb.example.com/"))
        (fun _ => "TOK") 7 (some "") [] 0 = .error ()) ∧
    (("u@x.com" : String) ≠ "" ∧
      ∃ rest, get_embedded_collection_url
        (metabaseClientInit "http://metabase:3000" "admin@x.com" "pw" "sec"
          (some "https://mb.example.com/"))
        (fun _ => "TOK") 7 (some "u@x.com") 0 =
        .ok ((metabaseClientInit "http://metabase:3000" "admin@x.com" "pw" "sec"
          (some "https://mb.example.com/")).public_url ++ rest)) :=
  ⟨⟨by decide,
    ((embed_url_email_guard_and_public_base "http://metabase:3000" "admin@x.com"
      "pw" "sec" (some "https://mb.example.com/") (fun _ => "TOK") 7 [] 0).1
      (some "") (by decide)).1⟩,
   ⟨by decide,
    ((embed_url_email_guard_and_public_base "http://metabase:3000" "admin@x.com"
      "pw" "sec" (some "https://mb.example.com/") (fun _ => "TOK") 7 [] 0).2
      "u@x.com" (by decide)).2⟩⟩

/-- C9: every successful response of the dashboard embed-URL endpoint
reports `expires_in_minutes = 60` in its body, while the signed payload
placed in the URL carries `exp = now + 86400` (24 hours) and the requesting
user's email. -/
theorem embed_route_expiry_mismatch (dashboard_id : Int) (user : UserRow)
    (db : Db) (cfg : MetabaseClientCfg) (encode : JwtEncoder) (now : Int)
    (resp : EmbeddedUrlResponse)
    (h : route_get_dashboard_embed_url dashboard_id user db cfg encode now =
      .ok resp) :
    resp.expires_in_minutes = 60 ∧
    ∃ dash, db.dashboards.find? (fun d => d.id == dashboard_id) = some dash ∧
      resp.url = rstripSlash cfg.public_url ++
        ("/embed/dashboard/" ++
          encode (dashboardEmbedPayload dash.metabase_dashboard_id
            user.email [] now) ++ "#bordered=false&titled=false") ∧
      (dashboardEmbedPayload dash.metabase_dashboard_id user.email [] now).exp =
        now + 86400 ∧
      (dashboardEmbedPayload dash.metabase_dashboard_id user.email [] now).email =
        some user.email := by
  unfold route_get_dashboard_embed_url at h
  split at h
  · exact absurd h (by simp)
  rename_i dash hd
  split at h
  · exact absurd h (by simp)
  rename_i m hm
  split at h
  · exact absurd h (by simp)
  rename_i url hu
  injection h with h
  subst h
  refine ⟨rfl, dash, hd, ?_, by simp [dashboardEmbedPayload], rfl⟩
  unfold get_dashboard_embed_url at hu
  split at hu
  · exact absurd hu (by simp)
  injection hu with hu
  simp [← hu, dashboardEmbedPayload]

/-- C9 witness: on the sample store the endpoint succeeds and the theorem
applies to its response. -/
theorem embed_route_expiry_mismatch_witness :
    (route_get_dashboard_embed_url 1 sampleUser sampleDb sampleCfg
      sampleEncode 1000 =
      .ok ⟨"http://metabase:3000/embed/dashboard/TOK#bordered=false&titled=false", 60⟩) ∧
    ((⟨"http://metabase:3000/embed/dashboard/TOK#bordered=false&titled=false", 60⟩ :
        EmbeddedUrlResponse).expires_in_minutes = 60 ∧
      ∃ dash, sampleDb.dashboards.find? (fun d => d.id == 1) = some dash ∧
        (⟨"http://metabase:3000/embed/dashboard/TOK#bordered=false&titled=false", 60⟩ :
            EmbeddedUrlResponse).url = rstripSlash sampleCfg.public_url ++
          ("/embed/dashboard/" ++
            sampleEncode (dashboardEmbedPayload dash.metabase_dashboard_id
              sampleUser.email [] 1000) ++ "#bordered=false&titled=false") ∧
        (dashboardEmbedPayload dash.metabase_dashboard_id sampleUser.email
          [] 1000).exp = 1000 + 86400 ∧
        (dashboardEmbedPayload dash.metabase_dashboard_id sampleUser.email
          [] 1000).email = some sampleUser.email) :=
  ⟨by rfl,
   embed_route_expiry_mismatch 1 sampleUser sampleDb sampleCfg sampleEncode
     1000 _ (by rfl)⟩

/-- C8: for any existing user, a login whose password fails the bcrypt
check (`verify`) answers 401 "Incorrect email or password" and leaves the
store untouched — in particular no access token is ever produced, since the
result is an error. -/
theorem login_wrong_password_401 (form_username form_password : String)
    (body : Option LoginBody) (db : Db) (verify : String → String → Bool)
    (ext : AuthExt) (now expire_minutes : Int) (u : UserRow)
    (huser : db.users.find? (fun x =>
      x.email == (resolveLoginCreds form_username form_password body).1.getD "") =
      some u)
    (he : truthyStr (resolveLoginCreds form_username form_password body).1 = true)
    (hp : truthyStr (resolveLoginCreds form_username form_password body).2 = true)
    (hwrong : verify
      ((resolveLoginCreds form_username form_password body).2.getD "")
      u.hashed_password = false) :
    login form_username form_password body db verify ext now expire_minutes =
      (.error ⟨401, "Incorrect email or password"⟩, db) := by
  unfold login
  rw [if_neg (by simp [he, hp])]
  simp only [huser, hwrong]
  simp

/-- C8 witness: a wrong password against the sample user's stored hash. -/
theorem login_wrong_password_401_witness :
    (sampleDb.users.find? (fun x =>
        x.email == (resolveLoginCreds "u@x.com" "wrong" none).1.getD "") =
        some sampleUser ∧
      truthyStr (resolveLoginCreds "u@x.com" "wrong" none).1 = true ∧
      truthyStr (resolveLoginCreds "u@x.com" "wrong" none).2 = true ∧
      (fun p h => p == h) ((resolveLoginCreds "u@x.com" "wrong" none).2.getD "")
        sampleUser.hashed_password = false) ∧
    login "u@x.com" "wrong" none sampleDb (fun p h => p == h)
      { get_user_by_email := .ok none, create_metabase_user := .ok ⟨some 1⟩
        create_default_collection := .ok ⟨some 1, some "c"⟩
        create_default_group := .ok ⟨some 1, some "g"⟩ } 0 30 =
      (.error ⟨401, "Incorrect email or password"⟩, sampleDb) :=
  ⟨⟨by decide, by decide, by decide, by decide⟩,
   login_wrong_password_401 "u@x.com" "wrong" none sampleDb (fun p h => p == h)
     { get_user_by_email := .ok none, create_metabase_user := .ok ⟨some 1⟩
       create_default_collection := .ok ⟨some 1, some "c"⟩
       create_default_group := .ok ⟨some 1, some "g"⟩ } 0 30 sampleUser
     (by decide) (by decide) (by decide) (by decide)⟩

/-- C7: when the requesting user owns the association and it is the last
`UserDashboard` link of the dashboard, `delete_dashboard` succeeds, removes
exactly that link, and rewrites the dashboard table so that the affected
row keeps every field except `is_published`, which becomes `false`; no
`Dashboard` row is removed (the new table is a `map` of the old one), and
users/workspaces/members are untouched. -/
theorem delete_last_link_unpublishes (dashboard_id user_id : Int) (db : Db)
    (ud : UserDashboardRow)
    (hfind : db.userDashboards.find? (fun l =>
      l.user_id == user_id && l.dashboard_id == dashboard_id) = some ud)
    (howner : ud.is_owner = true)
    (hlast : db.userDashboards.filter
      (fun l => l.dashboard_id == dashboard_id) = [ud]) :
    delete_dashboard dashboard_id user_id db =
      (.ok (), { db with
        userDashboards := db.userDashboards.eraseP (fun l =>
          l.user_id == user_id && l.dashboard_id == dashboard_id)
        dashboards := db.dashboards.map (fun d =>
          if d.id == dashboard_id then { d with is_published := false }
          else d) }) := by
  have hmem : ud ∈ db.userDashboards := List.mem_of_find?_eq_some hfind
  have hpud := List.find?_some hfind
  have hrem : ((db.userDashboards.eraseP (fun l =>
      l.user_id == user_id && l.dashboard_id == dashboard_id)).filter
      (fun l => l.dashboard_id == dashboard_id)) = [] :=
    filter_eraseP_nil hmem hpud
      (fun x hx => by
        simp only [Bool.and_eq_true] at hx
        exact hx.2)
      hlast
  unfold delete_dashboard
  rw [hfind]
  simp only [howner]
  rw [hrem]
  simp

/-- C7 witness: the sample store's single link is owned by the sample user
and is the dashboard's last link. -/
theorem delete_last_link_unpublishes_witness :
    (sampleDb.userDashboards.find? (fun l =>
        l.user_id == 9 && l.dashboard_id == 1) =
        some { user_id := 9, dashboard_id := 1, is_owner := true,
               is_pinned := true } ∧
      ({ user_id := 9, dashboard_id := 1, is_owner := true,
         is_pinned := true : UserDashboardRow }).is_owner = true ∧
      sampleDb.userDashboards.filter (fun l => l.dashboard_id == 1) =
        [{ user_id := 9, dashboard_id := 1, is_owner := true,
           is_pinned := true }]) ∧
    delete_dashboard 1 9 sampleDb =
      (.ok (), { sampleDb with
        userDashboards := sampleDb.userDashboards.eraseP (fun l =>
          l.user_id == 9 && l.dashboard_id == 1)
        dashboards := sampleDb.dashboards.map (fun d =>
          if d.id == 1 then { d with is_published := false } else d) }) :=
  ⟨⟨by decide, by decide, by decide⟩,
   delete_last_link_unpublishes 1 9 sampleDb
     { user_id := 9, dashboard_id := 1, is_owner := true, is_pinned := true }
     (by decide) (by decide) (by decide)⟩

/-- C2: when the POST creating `"{name} Team"` fails (as it does when the
name already exists), the client falls back to the lookup-by-name: if the
listing contains a group of that name, that existing group is returned and
the route links the workspace to *its* id under the original name, with no
retry consulted.  Only when the lookup fails too does the route make its
single retry with the time-suffixed unique name, and only when that retry
also fails does the operation give up with a 500. -/
theorem group_conflict_resolution (group_name unique_name : String)
    (createRes1 : Except Unit MbGroup) (listRes1 : Except Unit (List MbGroup))
    (retry : Except Unit MbGroup)
    (hfail : createRes1 = .error ()) :
    (∀ gs g, listRes1 = .ok gs →
      gs.find? (fun x => x.name == some group_name) = some g →
      create_group group_name createRes1 listRes1 = .ok g ∧
      (truthyInt g.id = true →
        resolveWorkspaceGroup group_name unique_name
          (create_group group_name createRes1 listRes1) retry =
          .ok (g.id.getD 0, group_name))) ∧
    (create_group group_name createRes1 listRes1 = .error () →
      (∀ g, retry = .ok g → truthyInt g.id = true →
        resolveWorkspaceGroup group_name unique_name
          (create_group group_name createRes1 listRes1) retry =
          .ok (g.id.getD 0, unique_name)) ∧
      (retry = .error () →
        resolveWorkspaceGroup group_name unique_name
          (create_group group_name createRes1 listRes1) retry =
          .error ⟨500, "Failed to create workspace group in Metabase"⟩)) := by
  constructor
  · intro gs g hgs hfind
    have hcg : create_group group_name createRes1 listRes1 = .ok g := by
      simp [create_group, hfail, hgs, hfind]
    exact ⟨hcg, fun hid => by simp [resolveWorkspaceGroup, hcg, hid]⟩
  · intro hcg
    constructor
    · intro g hr hid
      simp [resolveWorkspaceGroup, hcg, hr, hid]
    · intro hr
      simp [resolveWorkspaceGroup, hcg, hr]

/-- C2 witness: the POST fails, the listing holds a pre-existing
`"Sales Team"` group with id 5; the route links to that id under the
original name. -/
theorem group_conflict_resolution_witness :
    ((.error () : Except Unit MbGroup) = .error () ∧
      (.ok [⟨some 5, some "Sales Team"⟩] : Except Unit (List MbGroup)) =
        .ok [⟨some 5, some "Sales Team"⟩] ∧
      ([⟨some 5, some "Sales Team"⟩] : List MbGroup).find?
        (fun x => x.name == some "Sales Team") =
        some ⟨some 5, some "Sales Team"⟩ ∧
      truthyInt (some 5) = true) ∧
    resolveWorkspaceGroup "Sales Team" "Sales Team_1700000000"
      (create_group "Sales Team" (.error ())
        (.ok [⟨some 5, some "Sales Team"⟩]))
      (.error ()) = .ok (5, "Sales Team") :=
  ⟨⟨rfl, rfl, by decide, by decide⟩,
   ((group_conflict_resolution "Sales Team" "Sales Team_1700000000"
      (.error ()) (.ok [⟨some 5, some "Sales Team"⟩]) (.error ()) rfl).1
      [⟨some 5, some "Sales Team"⟩] ⟨some 5, some "Sales Team"⟩ rfl
      (by decide)).2 (by decide)⟩

/-- C1: when any mandatory step of `create_workspace` fails — collection
creation, group resolution (both attempts), or the collection write-grant —
the handler surfaces a 500 and the local store is exactly as before (the
transaction holds nothing to keep); when the mandatory steps succeed, the
handler returns the new workspace and commits it plus the `"owner"`
membership row, whatever the best-effort outcomes (collection embedding,
database permissions, group membership) were. -/
theorem create_workspace_mandatory_vs_best_effort (name : String)
    (description : Option String) (user : UserRow) (db : Db) (ext : WsExt)
    (now : Int) :
    (wsMandatoryOk ext = false →
      ∃ e, create_workspace name description user db ext now = (.error e, db) ∧
        e.status = 500) ∧
    (wsMandatoryOk ext = true →
      ∃ ws, create_workspace name description user db ext now =
        (.ok ws, { db with
          workspaces := db.workspaces ++ [ws]
          members := db.members ++
            [{ workspace_id := ws.id, user_id := user.id, role := "owner" }]
          nextWsId := db.nextWsId + 1 })) := by
  cases hc : ext.create_collection with
  | error e =>
    constructor
    · intro _
      exact ⟨⟨500, "Failed to create workspace"⟩,
        by simp [create_workspace, hc], rfl⟩
    · intro h
      simp [wsMandatoryOk, hc] at h
  | ok coll =>
    cases hg1 : ext.create_group_first with
    | ok g1 =>
      by_cases hid1 : truthyInt g1.id = true
      · cases hp : ext.set_collection_permissions with
        | error e =>
          constructor
          · intro _
            exact ⟨⟨500, "Failed to create workspace"⟩,
              by simp [create_workspace, resolveWorkspaceGroup, hc, hg1,
                hid1, hp], rfl⟩
          · intro h
            simp [wsMandatoryOk, hc, hg1, hid1, hp] at h
        | ok b =>
          constructor
          · intro h
            simp [wsMandatoryOk, hc, hg1, hid1, hp] at h
          · intro _
            refine ⟨newWorkspaceRow name description user db coll
              (g1.id.getD 0) (name ++ " Team") (analyticsDbOf ext), ?_⟩
            simp [create_workspace, resolveWorkspaceGroup, hc, hg1, hid1, hp,
              newWorkspaceRow]
      · constructor
        · intro _
          refine ⟨⟨500, "Failed to get group ID from Metabase"⟩, ?_, rfl⟩
          simp [create_workspace, resolveWorkspaceGroup, hc, hg1, hid1]
        · intro h
          simp [wsMandatoryOk, hc, hg1, hid1] at h
    | error e1 =>
      cases hg2 : ext.create_group_retry with
      | ok g2 =>
        by_cases hid2 : truthyInt g2.id = true
        · cases hp : ext.set_collection_permissions with
          | error e =>
            constructor
            · intro _
              exact ⟨⟨500, "Failed to create workspace"⟩,
                by simp [create_workspace, resolveWorkspaceGroup, hc, hg1,
                  hg2, hid2, hp], rfl⟩
            · intro h
              simp [wsMandatoryOk, hc, hg1, hg2, hid2, hp] at h
          | ok b =>
            constructor
            · intro h
              simp [wsMandatoryOk, hc, hg1, hg2, hid2, hp] at h
            · intro _
              refine ⟨newWorkspaceRow name description user db coll
                (g2.id.getD 0) (name ++ " Team" ++ "_" ++ toString now)
                (analyticsDbOf ext), ?_⟩
              simp [create_workspace, resolveWorkspaceGroup, hc, hg1, hg2,
                hid2, hp, newWorkspaceRow]
        · constructor
          · intro _
            refine ⟨⟨500, "Failed to get group ID from Metabase"⟩, ?_, rfl⟩
            simp [create_workspace, resolveWorkspaceGroup, hc, hg1, hg2, hid2]
          · intro h
            simp [wsMandatoryOk, hc, hg1, hg2, hid2] at h
      | error e2 =>
        constructor
        · intro _
          refine ⟨⟨500, "Failed to create workspace group in Metabase"⟩, ?_, rfl⟩
          simp [create_workspace, resolveWorkspaceGroup, hc, hg1, hg2]
        · intro h
          simp [wsMandatoryOk, hc, hg1, hg2] at h

/-- C1 witness: with every external call succeeding except the best-effort
ones (embedding disabled, database permissions failing, membership add
failing), the workspace and owner membership are still committed. -/
theorem create_workspace_mandatory_vs_best_effort_witness :
    (wsMandatoryOk
      { create_collection := .ok ⟨some 10, some "Sales"⟩
        enable_collection_embedding := .error ()
        create_group_first := .ok ⟨some 5, some "Sales Team"⟩
        create_group_retry := .error ()
        set_collection_permissions := .ok true
        list_databases := .error ()
        set_database_permissions := .error ()
        add_user_to_group := .error () } = true) ∧
    (∃ ws, create_workspace "Sales" none sampleUser sampleDb
      { create_collection := .ok ⟨some 10, some "Sales"⟩
        enable_collection_embedding := .error ()
        create_group_first := .ok ⟨some 5, some "Sales Team"⟩
        create_group_retry := .error ()
        set_collection_permissions := .ok true
        list_databases := .error ()
        set_database_permissions := .error ()
        add_user_to_group := .error () } 1700000000 =
      (.ok ws, { sampleDb with
        workspaces := sampleDb.workspaces ++ [ws]
        members := sampleDb.members ++
          [{ workspace_id := ws.id, user_id := sampleUser.id, role := "owner" }]
        nextWsId := sampleDb.nextWsId + 1 })) :=
  ⟨by decide,
   (create_workspace_mandatory_vs_best_effort "Sales" none sampleUser sampleDb
     { create_collection := .ok ⟨some 10, some "Sales"⟩
       enable_collection_embedding := .error ()
       create_group_first := .ok ⟨some 5, some "Sales Team"⟩
       create_group_retry := .error ()
       set_collection_permissions := .ok true
       list_databases := .error ()
       set_database_permissions := .error ()
       add_user_to_group := .error () } 1700000000).2 (by decide)⟩

/-! ## Sync-loop lemmas -/

theorem syncItems_nil (workspace_id : Int) (st : List DashboardRow × Int × Nat) :
    syncItems workspace_id [] st = st := rfl

theorem syncItems_cons (workspace_id : Int) (i : CollectionItem)
    (is : List CollectionItem) (st : List DashboardRow × Int × Nat) :
    syncItems workspace_id (i :: is) st =
      syncItems workspace_id is (syncItem workspace_id st i) := rfl

theorem syncItem_rows_extend (workspace_id : Int)
    (st : List DashboardRow × Int × Nat) (i : CollectionItem) :
    ∃ ext, (syncItem workspace_id st i).1 = st.1 ++ ext := by
  obtain ⟨rows, nid, cnt⟩ := st
  simp only [syncItem]
  split_ifs with h1 h2 h3
  · exact ⟨[], by simp⟩
  · exact ⟨[], by simp⟩
  · exact ⟨[], by simp⟩
  · exact ⟨_, rfl⟩

theorem itemCovered_append (workspace_id : Int) (rows ext : List DashboardRow)
    (i : CollectionItem) (h : itemCovered workspace_id rows i) :
    itemCovered workspace_id (rows ++ ext) i := by
  rcases h with h | h | h
  · exact Or.inl h
  · exact Or.inr (Or.inl h)
  · refine Or.inr (Or.inr ?_)
    rw [List.any_append, h]
    rfl

theorem itemCovered_syncItem (workspace_id : Int)
    (st : List DashboardRow × Int × Nat) (i : CollectionItem) :
    itemCovered workspace_id (syncItem workspace_id st i).1 i := by
  obtain ⟨rows, nid, cnt⟩ := st
  simp only [syncItem]
  split_ifs with h1 h2 h3
  · exact Or.inl h1
  · exact Or.inr (Or.inl h2)
  · exact Or.inr (Or.inr h3)
  · refine Or.inr (Or.inr ?_)
    simp [List.any_append]

theorem syncItem_of_covered (workspace_id : Int)
    (st : List DashboardRow × Int × Nat) (i : CollectionItem)
    (h : itemCovered workspace_id st.1 i) :
    syncItem workspace_id st i = st := by
  obtain ⟨rows, nid, cnt⟩ := st
  simp only [syncItem]
  split_ifs with h1 h2 h3
  · rfl
  · rfl
  · rfl
  · exfalso
    rcases h with h | h | h
    · exact h1 h
    · exact h2 h
    · exact h3 h

theorem syncItems_rows_extend (workspace_id : Int) (items : List CollectionItem) :
    ∀ st : List DashboardRow × Int × Nat,
      ∃ ext, (syncItems workspace_id items st).1 = st.1 ++ ext := by
  induction items with
  | nil => exact fun st => ⟨[], by simp [syncItems_nil]⟩
  | cons i is ih =>
    intro st
    obtain ⟨ext1, h1⟩ := syncItem_rows_extend workspace_id st i
    obtain ⟨ext2, h2⟩ := ih (syncItem workspace_id st i)
    refine ⟨ext1 ++ ext2, ?_⟩
    rw [syncItems_cons, h2, h1, List.append_assoc]

theorem syncItems_covers (workspace_id : Int) (items : List CollectionItem) :
    ∀ (st : List DashboardRow × Int × Nat) (i : CollectionItem), i ∈ items →
      itemCovered workspace_id (syncItems workspace_id items st).1 i := by
  induction items with
  | nil => intro st i h; cases h
  | cons j js ih =>
    intro st i h
    rw [syncItems_cons]
    rcases List.mem_cons.mp h with rfl | h'
    · obtain ⟨ext, hext⟩ :=
        syncItems_rows_extend workspace_id js (syncItem workspace_id st i)
      rw [hext]
      exact itemCovered_append workspace_id _ ext i
        (itemCovered_syncItem workspace_id st i)
    · exact ih (syncItem workspace_id st j) i h'

theorem syncItems_of_covered (workspace_id : Int) (items : List CollectionItem) :
    ∀ st : List DashboardRow × Int × Nat,
      (∀ i ∈ items, itemCovered workspace_id st.1 i) →
      syncItems workspace_id items st = st := by
  induction items with
  | nil => intro st _; rfl
  | cons j js ih =>
    intro st h
    rw [syncItems_cons, syncItem_of_covered workspace_id st j (h j (by simp))]
    exact ih st (fun i hi => h i (by simp [hi]))

/-- C4: sync is idempotent on local state — whatever a first sync over a
fixed external item list leaves behind, a second sync over the same items
creates zero additional local rows and leaves the store exactly as it was
(either because the workspace has no collection, or because every item is
already covered and the count comes back 0). -/
theorem sync_idempotent (workspace_id : Int) (db : Db)
    (items : List CollectionItem) :
    sync_workspace_dashboards_logic workspace_id
        (sync_workspace_dashboards_logic workspace_id db (.ok items)).2
        (.ok items) =
      (.ok .noCollection,
        (sync_workspace_dashboards_logic workspace_id db (.ok items)).2) ∨
    sync_workspace_dashboards_logic workspace_id
        (sync_workspace_dashboards_logic workspace_id db (.ok items)).2
        (.ok items) =
      (.ok (.synced 0),
        (sync_workspace_dashboards_logic workspace_id db (.ok items)).2) := by
  cases hw : db.workspaces.find? (fun w => w.id == workspace_id) with
  | none =>
    left
    simp [sync_workspace_dashboards_logic, hw]
  | some ws =>
    by_cases ht : truthyInt ws.metabase_collection_id = true
    · right
      have hcov : ∀ i ∈ items, itemCovered workspace_id
          (syncItems workspace_id items (db.dashboards, db.nextDashId, 0)).1 i :=
        fun i hi =>
          syncItems_covers workspace_id items (db.dashboards, db.nextDashId, 0) i hi
      have hid : syncItems workspace_id items
          ((syncItems workspace_id items (db.dashboards, db.nextDashId, 0)).1,
           (syncItems workspace_id items (db.dashboards, db.nextDashId, 0)).2.1, 0) =
          ((syncItems workspace_id items (db.dashboards, db.nextDashId, 0)).1,
           (syncItems workspace_id items (db.dashboards, db.nextDashId, 0)).2.1, 0) :=
        syncItems_of_covered workspace_id items _ hcov
      simp [sync_workspace_dashboards_logic, hw, ht, hid]
    · left
      simp [sync_workspace_dashboards_logic, hw, ht]

/-- C3(amended): the sync never touches pre-existing rows — the resulting
dashboard table always extends the previous one, so an item whose external
id already has a row in the workspace leaves that row (display name
included) byte-for-byte unchanged; nothing is refreshed. -/
theorem sync_appends_only (workspace_id : Int) (db : Db)
    (fetch : Except Unit (List CollectionItem)) :
    ∃ ext, (sync_workspace_dashboards_logic workspace_id db fetch).2.dashboards =
      db.dashboards ++ ext := by
  cases hw : db.workspaces.find? (fun w => w.id == workspace_id) with
  | none => exact ⟨[], by simp [sync_workspace_dashboards_logic, hw]⟩
  | some ws =>
    by_cases ht : truthyInt ws.metabase_collection_id = true
    · cases fetch with
      | error e => exact ⟨[], by simp [sync_workspace_dashboards_logic, hw, ht]⟩
      | ok items =>
        obtain ⟨ext, hext⟩ := syncItems_rows_extend workspace_id items
          (db.dashboards, db.nextDashId, 0)
        exact ⟨ext, by simp [sync_workspace_dashboards_logic, hw, ht, hext]⟩
    · exact ⟨[], by simp [sync_workspace_dashboards_logic, hw, ht]⟩

/-- C3 counterexample: the sample workspace's dashboard 44 is named
`"Sales KPIs"` locally; a fetched item with the same external id renamed to
`"Renamed"` does *not* refresh the local display name — the row is left
unchanged, contradicting the claim that the sync refreshes it. -/
theorem sync_does_not_refresh_names_counterexample :
    (sync_workspace_dashboards_logic 3 sampleDb
        (.ok [⟨some "dashboard", some 44, some "Renamed"⟩])).2.dashboards =
      [{ id := 1, workspace_id := 3, metabase_dashboard_id := 44
         metabase_dashboard_name := "Sales KPIs", is_public := false
         is_published := false }] ∧
    ("Sales KPIs" : String) ≠ "Renamed" :=
  ⟨by decide, by decide⟩

/-- C5: an exception from the external item fetch makes the routine roll
back — the store it returns is exactly the one it was given, no partial
upsert survives — and re-raise the error; more generally any erroring run
leaves the store unchanged.  (On success all upserts land in the single
commit at the end.) -/
theorem sync_rollback_and_reraise (workspace_id : Int) (db : Db)
    (fetch : Except Unit (List CollectionItem)) :
    ((sync_workspace_dashboards_logic workspace_id db fetch).1 = .error () →
      (sync_workspace_dashboards_logic workspace_id db fetch).2 = db) ∧
    (∀ ws, db.workspaces.find? (fun w => w.id == workspace_id) = some ws →
      truthyInt ws.metabase_collection_id = true →
      fetch = .error () →
      sync_workspace_dashboards_logic workspace_id db fetch =
        (.error (), db)) := by
  constructor
  · intro h
    cases hw : db.workspaces.find? (fun w => w.id == workspace_id) with
    | none => simp [sync_workspace_dashboards_logic, hw]
    | some ws =>
      by_cases ht : truthyInt ws.metabase_collection_id = true
      · cases fetch with
        | error e => simp [sync_workspace_dashboards_logic, hw, ht]
        | ok items => simp [sync_workspace_dashboards_logic, hw, ht] at h
      · simp [sync_workspace_dashboards_logic, hw, ht]
  · intro ws hw ht hf
    subst hf
    simp [sync_workspace_dashboards_logic, hw, ht]

/-- C5 witness: fetching the sample workspace's items fails; the routine
re-raises and hands back the untouched store. -/
theorem sync_rollback_and_reraise_witness :
    (sampleDb.workspaces.find? (fun w => w.id == 3) =
        some { id := 3, name := "Sales", owner_id := 9
               metabase_collection_id := some 10
               metabase_collection_name := some "Sales" } ∧
      truthyInt ({ id := 3, name := "Sales", owner_id := 9
                   metabase_collection_id := some 10
                   metabase_collection_name := some "Sales" :
                   WorkspaceRow }).metabase_collection_id = true ∧
      (.error () : Except Unit (List CollectionItem)) = .error ()) ∧
    sync_workspace_dashboards_logic 3 sampleDb (.error ()) =
      (.error (), sampleDb) :=
  ⟨⟨by decide, by decide, rfl⟩,
   (sync_rollback_and_reraise 3 sampleDb (.error ())).2
     { id := 3, name := "Sales", owner_id := 9
       metabase_collection_id := some 10
       metabase_collection_name := some "Sales" }
     (by decide) (by decide) rfl⟩

/-- C6 counterexample: with an empty store (no default workspace yet) and
Metabase unreachable — the user-resolution call fails *and* the default
workspace's collection creation fails — `signup` for a fresh unique email
does **not** return 201: `assign_user_to_default_workspace` re-raises, the
generic handler answers 500.  This contradicts the claim that the external
failure never prevents the 201. -/
theorem signup_not_always_201_counterexample :
    (signup "a@x.com" "pw123456" none none (fun s => s ++ "#h") {}
      { get_user_by_email := .error ()
        create_metabase_user := .error ()
        create_default_collection := .error ()
        create_default_group := .error () }).1 =
      .error ⟨500, "Internal server error"⟩ := by
  rfl

/-- C6(amended): *provided the default-workspace assignment step can
succeed* — here: a default active workspace already exists — `signup` with
a unique email and a valid password always returns 201, with
`metabase_user_id` null when the Metabase user resolution failed and equal
to the external id when it succeeded with a truthy id; the external
user-creation failure alone never prevents the 201.  (When no default
workspace exists and its provisioning fails, signup instead surfaces a 500
— see the counterexample.) -/
theorem signup_201_despite_metabase_failure (email password : String)
    (first_name last_name : Option String) (hashPw : String → String)
    (db : Db) (ext : AuthExt) (ws : WorkspaceRow)
    (hunique : db.users.any (fun u => u.email == email) = false)
    (hpw1 : password ≠ "")
    (hpw2 : password.utf8ByteSize ≤ 72)
    (hws : db.workspaces.find? (fun w => w.is_default && w.is_active) =
      some ws) :
    (signup email password first_name last_name hashPw db ext).1 =
      .ok { id := db.nextUserId
            email := email
            hashed_password := hashPw password
            first_name := first_name
            last_name := last_name
            metabase_user_id := signupMbId ext
            default_workspace_assigned := true
            is_active := true } ∧
    (resolveMbUser ext = .error () → signupMbId ext = none) ∧
    (∀ u, resolveMbUser ext = .ok (some u) → truthyInt u.id = true →
      signupMbId ext = u.id) := by
  refine ⟨?_, ?_, ?_⟩
  · unfold signup
    rw [hunique]
    simp only [Bool.false_eq_true, if_false]
    rw [show get_password_hash hashPw password = .ok (hashPw password) from by
      simp [get_password_hash, hpw1, Nat.not_lt.mpr hpw2]]
    unfold assign_user_to_default_workspace
    simp only [hws]
  · intro h
    simp [signupMbId, h]
  · intro u h hid
    simp [signupMbId, h, hid]

/-- C6 witness: a default workspace exists; Metabase user resolution fails;
signup still returns 201 with a null `metabase_user_id`. -/
theorem signup_201_despite_metabase_failure_witness :
    (({ workspaces := [{ id := 1, name := "My Workspace", owner_id := 1
                         is_default := true, is_active := true }]
        nextUserId := 5 } : Db).users.any (fun u => u.email == "a@x.com") =
        false ∧
      ("pw123456" : String) ≠ "" ∧
      ("pw123456" : String).utf8ByteSize ≤ 72 ∧
      ({ workspaces := [{ id := 1, name := "My Workspace", owner_id := 1
                          is_default := true, is_active := true }]
         nextUserId := 5 } : Db).workspaces.find?
        (fun w => w.is_default && w.is_active) =
        some { id := 1, name := "My Workspace", owner_id := 1
               is_default := true, is_active := true }) ∧
    ((signup "a@x.com" "pw123456" none none (fun s => s ++ "#h")
        { workspaces := [{ id := 1, name := "My Workspace", owner_id := 1
                           is_default := true, is_active := true }]
          nextUserId := 5 }
        { get_user_by_email := .error ()
          create_metabase_user := .error ()
          create_default_collection := .error ()
          create_default_group := .error () }).1 =
      .ok { id := 5
            email := "a@x.com"
            hashed_password := (fun s => s ++ "#h") "pw123456"
            first_name := none
            last_name := none
            metabase_user_id := signupMbId
              { get_user_by_email := .error ()
                create_metabase_user := .error ()
                create_default_collection := .error ()
                create_default_group := .error () }
            default_workspace_assigned := true
            is_active := true } ∧
      (resolveMbUser
          { get_user_by_email := .error ()
            create_metabase_user := .error ()
            create_default_collection := .error ()
            create_default_group := .error () } = .error () →
        signupMbId
          { get_user_by_email := .error ()
            create_metabase_user := .error ()
            create_default_collection := .error ()
            create_default_group := .error () } = none) ∧
      (∀ u, resolveMbUser
          { get_user_by_email := .error ()
            create_metabase_user := .error ()
            create_default_collection := .error ()
            create_default_group := .error () } = .ok (some u) →
        truthyInt u.id = true →
        signupMbId
          { get_user_by_email := .error ()
            create_metabase_user := .error ()
            create_default_collection := .error ()
            create_default_group := .error () } = u.id)) :=
  ⟨⟨by decide, by decide, by decide, by decide⟩,
   signup_201_despite_metabase_failure "a@x.com" "pw123456" none none
     (fun s => s ++ "#h")
     { workspaces := [{ id := 1, name := "My Workspace", owner_id := 1
                        is_default := true, is_active := true }]
       nextUserId := 5 }
     { get_user_by_email := .error ()
       create_metabase_user := .error ()
       create_default_collection := .error ()
       create_default_group := .error () }
     { id := 1, name := "My Workspace", owner_id := 1
       is_default := true, is_active := true }
     (by decide) (by decide) (by decide) (by decide)⟩

end MetabaseEmbedder
